import Mathlib

/-!
Verification of the mood-journal service (`app.py`): a Flask app with two
routes.  `POST /add_entry` validates the request text, sends it to a remote
emotion classifier, selects the primary emotion by maximum score, and inserts
one row into the `journal_entries` table.  `GET /moods` lists the 30 most
recent rows ordered by timestamp descending.

The embedding models JSON values as an inductive type, the Python dict built
by `analyze_emotion` as an association list in insertion order, the database
as an explicit list of rows plus an autoincrement counter, and each handler as
a pure function from its request, an environment (classifier response,
connection/insert availability, current time) and the store state to a result
carrying the HTTP response, the new store state and the trace of external
calls performed.  Numeric JSON values are modelled as rationals.
-/

open List

/-- A JSON value, as produced by `response.json()` / `request.json`. -/
inductive Json where
  | null : Json
  | jbool : Bool → Json
  | jnum : ℚ → Json
  | jstr : String → Json
  | jarr : List Json → Json
  | jobj : List (String × Json) → Json

/-- Python truthiness of a parsed JSON value, as used by `if not entry_text`
and `if not emotion_data` in `app.py`. -/
def truthy : Json → Bool
  | .null => false
  | .jbool b => b
  | .jnum q => decide (q ≠ 0)
  | .jstr s => decide (s ≠ "")
  | .jarr xs => !xs.isEmpty
  | .jobj fs => !fs.isEmpty

/-- `d.get(k)` on a parsed JSON object: `some` value if the key is present,
`none` otherwise (Python `None`). -/
def objGet (fs : List (String × Json)) (k : String) : Option Json :=
  (fs.find? fun p => p.1 == k).map (·.2)

/-- Whether a JSON value is hashable in Python, hence usable as a dict key
(lists and dicts are unhashable and raise `TypeError`). -/
def hashable : Json → Bool
  | .jarr _ => false
  | .jobj _ => false
  | _ => true

/-- Equality of dict keys.  Keys reaching the emotion-scores dict are
hashable scalars (see `hashable`), so only scalar cases can arise; Python's
numeric cross-type equality (`True == 1`) is not modelled, no claim mixes
boolean and numeric labels. -/
def pyKeyEq : Json → Json → Bool
  | .null, .null => true
  | .jbool a, .jbool b => a == b
  | .jnum a, .jnum b => decide (a = b)
  | .jstr a, .jstr b => a == b
  | _, _ => false

/-- One step of building a Python dict: an existing key keeps its position
and gets the new value, a new key is appended (insertion order). -/
def dictInsert (d : List (Json × Json)) (k v : Json) : List (Json × Json) :=
  if d.any fun p => pyKeyEq p.1 k then
    d.map fun p => if pyKeyEq p.1 k then (p.1, v) else p
  else d ++ [(k, v)]

/-- Dict lookup `d[k]`, returning `none` when the key is absent. -/
def dictGet (d : List (Json × Json)) (k : Json) : Option Json :=
  (d.find? fun p => pyKeyEq p.1 k).map (·.2)

/-- Outcome of `analyze_emotion`: a dict of emotion scores, a caught failure
(the function returns `None`), or an uncaught exception escaping the
function (`KeyError`/`TypeError` raised inside the dict comprehension, which
the `except` clauses of `analyze_emotion` do not catch). -/
inductive ClassifyOutcome where
  | ok : List (Json × Json) → ClassifyOutcome
  | failed : ClassifyOutcome
  | crash : ClassifyOutcome

/-- The observable result of the HTTP call to the classifier endpoint:
a transport-level failure (network error or non-2xx status raised by
`raise_for_status`), a body that is not valid JSON, or a parsed JSON body. -/
inductive HttpResp where
  | transportError : HttpResp
  | badJson : HttpResp
  | ok : Json → HttpResp

/-- The dict comprehension
`\x7bitem['label']: item['score'] for item in result[0]\x7d`:
each item must be an object carrying both keys (else `KeyError`, or
`TypeError` for a non-object item or an unhashable label), and the pairs are
accumulated with Python dict insertion semantics. -/
def buildScores : List Json → List (Json × Json) → ClassifyOutcome
  | [], acc => .ok acc
  | item :: rest, acc =>
    match item with
    | .jobj fs =>
      match objGet fs "label", objGet fs "score" with
      | some l, some s =>
        if hashable l then buildScores rest (dictInsert acc l s) else .crash
      | _, _ => .crash
    | _ => .crash

/-- `analyze_emotion` from `app.py`: transport and JSON-decoding errors are
caught and return `None` (`failed`); a truthy list whose first element is a
list is parsed by the dict comprehension; any other shape returns `None`. -/
def analyze_emotion (resp : HttpResp) : ClassifyOutcome :=
  match resp with
  | .transportError => .failed
  | .badJson => .failed
  | .ok result =>
    match result with
    | .jarr (first :: rest) =>
      if truthy (.jarr (first :: rest)) then
        match first with
        | .jarr items => buildScores items []
        | _ => .failed
      else .failed
    | _ => .failed

/-- Python `<` on the values compared by `max(..., key=emotion_data.get)`.
`none` models a `TypeError` for unorderable operands.  Numeric, boolean and
string comparisons are modelled; Python's lexicographic comparison of two
lists is not (no claim depends on it). -/
def jsonLt : Json → Json → Option Bool
  | .jnum a, .jnum b => some (decide (a < b))
  | .jnum a, .jbool b => some (decide (a < if b then 1 else 0))
  | .jbool a, .jnum b => some (decide ((if a then (1 : ℚ) else 0) < b))
  | .jbool a, .jbool b => some (decide ((if a then (1 : ℚ) else 0) < if b then 1 else 0))
  | .jstr a, .jstr b => some (decide (a < b))
  | _, _ => none

/-- The loop of Python `max` with a key function: the current best is
replaced exactly when a later item compares strictly greater, so ties keep
the first-encountered key. -/
def pyMaxGo (best : Json × Json) : List (Json × Json) → Option (Json × Json)
  | [] => some best
  | p :: rest =>
    match jsonLt best.2 p.2 with
    | none => none
    | some b => if b then pyMaxGo p rest else pyMaxGo best rest

/-- `max(emotion_data, key=emotion_data.get)` over the dict in iteration
order, returning the (key, value) pair of the chosen key; `none` models the
errors `max` can raise (empty dict, unorderable values). -/
def pyMax : List (Json × Json) → Option (Json × Json)
  | [] => none
  | p :: rest => pyMaxGo p rest

/-- Python `x * 100` on the chosen score, as in
`primary_score = emotion_data[primary_emotion] * 100`.  Numbers scale,
booleans coerce to integers, strings and lists repeat; `None` and dicts
raise `TypeError` (`none`). -/
def jsonTimes100 : Json → Option Json
  | .jnum q => some (.jnum (q * 100))
  | .jbool b => some (.jnum (if b then 100 else 0))
  | .jstr s => some (.jstr (String.join (List.replicate 100 s)))
  | .jarr xs => some (.jarr (List.flatten (List.replicate 100 xs)))
  | .null => none
  | .jobj _ => none

/-- A `DATETIME` value as held in the `timestamp` column and returned by the
MySQL connector as a Python `datetime` (second resolution, no microseconds,
as produced by `CURRENT_TIMESTAMP`). -/
structure DateTime where
  year : Nat
  month : Nat
  day : Nat
  hour : Nat
  minute : Nat
  second : Nat
deriving DecidableEq

/-- The field ranges `datetime` and `DATETIME` guarantee. -/
def DateTime.Valid (d : DateTime) : Prop :=
  1 ≤ d.year ∧ d.year ≤ 9999 ∧ 1 ≤ d.month ∧ d.month ≤ 12 ∧ 1 ≤ d.day ∧
    d.day ≤ 31 ∧ d.hour ≤ 23 ∧ d.minute ≤ 59 ∧ d.second ≤ 59

instance (d : DateTime) : Decidable d.Valid := by unfold DateTime.Valid; infer_instance

/-- Encoding of a datetime as a single natural number; for valid datetimes
(every field below its radix position) this encoding is strictly monotone in
the chronological order, so comparing keys compares instants. -/
def DateTime.key (d : DateTime) : Nat :=
  ((((d.year * 100 + d.month) * 100 + d.day) * 100 + d.hour) * 100 + d.minute) * 100 + d.second

/-- The decimal digit character for `n` (callers pass values below 10). -/
def digitChar : Nat → Char
  | 0 => '0'
  | 1 => '1'
  | 2 => '2'
  | 3 => '3'
  | 4 => '4'
  | 5 => '5'
  | 6 => '6'
  | 7 => '7'
  | 8 => '8'
  | _ => '9'

/-- Two-digit zero-padded rendering of a field value below 100. -/
def pad2 (n : Nat) : List Char :=
  [digitChar (n / 10 % 10), digitChar (n % 10)]

/-- Four-digit zero-padded rendering of a year below 10000. -/
def pad4 (n : Nat) : List Char :=
  [digitChar (n / 1000 % 10), digitChar (n / 100 % 10), digitChar (n / 10 % 10),
    digitChar (n % 10)]

/-- Python `datetime.isoformat()` for a microsecond-free datetime:
`YYYY-MM-DDTHH:MM:SS`. -/
def isoformat (d : DateTime) : String :=
  String.mk (pad4 d.year ++ ['-'] ++ pad2 d.month ++ ['-'] ++ pad2 d.day ++ ['T'] ++
    pad2 d.hour ++ [':'] ++ pad2 d.minute ++ [':'] ++ pad2 d.second)

/-- Checker for the ISO 8601 date-time format produced above: 19 characters,
digits and fixed separators in the right positions. -/
def isValidIso (s : String) : Bool :=
  match s.data with
  | [y1, y2, y3, y4, s1, mo1, mo2, s2, d1, d2, t1, h1, h2, s3, mi1, mi2, s4, se1, se2] =>
    y1.isDigit && y2.isDigit && y3.isDigit && y4.isDigit && s1 == '-' &&
      mo1.isDigit && mo2.isDigit && s2 == '-' && d1.isDigit && d2.isDigit &&
      t1 == 'T' && h1.isDigit && h2.isDigit && s3 == ':' && mi1.isDigit &&
      mi2.isDigit && s4 == ':' && se1.isDigit && se2.isDigit
  | _ => false

/-- One row of the `journal_entries` table.  `id` is the autoincrement key,
`timestamp` defaults to the insertion instant; the remaining columns store
the values bound by the `INSERT` statement. -/
structure Row where
  id : Nat
  entry_text : Json
  primary_emotion : Json
  primary_score : Json
  timestamp : DateTime

/-- The database: rows of `journal_entries` in insertion order plus the next
autoincrement id. -/
structure StoreState where
  rows : List Row
  nextId : Nat

/-- Store invariant maintained by autoincrement insertion: ids strictly
increase along insertion order and stay below the counter. -/
def StoreWF (st : StoreState) : Prop :=
  st.rows.Pairwise (fun a b => a.id < b.id) ∧ ∀ r ∈ st.rows, r.id < st.nextId

/-- External calls a handler performs, in order: the classifier request, a
database connection attempt, the `INSERT` execution, the `SELECT` query. -/
inductive Event where
  | classify : Json → Event
  | dbConnect : Event
  | dbInsert : Event
  | dbSelect : Event

/-- An HTTP response: a JSON body with a status code, or an uncaught
exception escaping the handler (Flask's generic error page instead of one of
the handler's JSON bodies). -/
inductive Response where
  | jsonResp : Nat → Json → Response
  | crash : Response

/-- What a handler produces: the response, the store after the request, and
the trace of external calls made. -/
structure HandlerResult where
  resp : Response
  store : StoreState
  events : List Event

/-- A JSON error body with a single `error` field. -/
def errObj (msg : String) : Json :=
  .jobj [("error", .jstr msg)]

/-- The environment a `POST /add_entry` request runs in: the classifier's
response, whether the database connection and the insert succeed, and the
instant the store would stamp on a new row. -/
structure Env where
  classifierResp : HttpResp
  connOk : Bool
  insertOk : Bool
  now : DateTime

/-- The tail of `add_entry` from the database connection on: connection
failure, insert failure, or the committed row and the success body. -/
def saveEntry (t pe ps : Json) (env : Env) (st : StoreState) : HandlerResult :=
  if env.connOk then
    if env.insertOk then
      ⟨.jsonResp 200 (.jobj [("message", .jstr "Entry saved successfully"),
          ("emotion", pe), ("score", ps)]),
        ⟨st.rows ++ [⟨st.nextId, t, pe, ps, env.now⟩], st.nextId + 1⟩,
        [.classify t, .dbConnect, .dbInsert]⟩
    else
      ⟨.jsonResp 500 (errObj "Failed to save entry to database"), st,
        [.classify t, .dbConnect, .dbInsert]⟩
  else
    ⟨.jsonResp 500 (errObj "Database connection failed"), st, [.classify t, .dbConnect]⟩

/-- `add_entry` after validation: classify, reject falsy score dicts, select
the primary emotion by `max`, look its score up, scale it, then save.
`crash` marks the unhandled exceptions the corresponding Python expressions
can raise. -/
def withText (t : Json) (env : Env) (st : StoreState) : HandlerResult :=
  match analyze_emotion env.classifierResp with
  | .crash => ⟨.crash, st, [.classify t]⟩
  | .failed => ⟨.jsonResp 500 (errObj "Failed to analyze emotion"), st, [.classify t]⟩
  | .ok d =>
    if d.isEmpty then
      ⟨.jsonResp 500 (errObj "Failed to analyze emotion"), st, [.classify t]⟩
    else
      match pyMax d with
      | none => ⟨.crash, st, [.classify t]⟩
      | some m =>
        match dictGet d m.1 with
        | none => ⟨.crash, st, [.classify t]⟩
        | some sv =>
          match jsonTimes100 sv with
          | none => ⟨.crash, st, [.classify t]⟩
          | some ps => saveEntry t m.1 ps env st

/-- The `POST /add_entry` handler.  `request.json` must be an object for
`data.get('text')` to work (otherwise `AttributeError`); a missing or falsy
`text` is rejected with 400 before any external call. -/
def add_entry (body : Json) (env : Env) (st : StoreState) : HandlerResult :=
  match body with
  | .jobj fs =>
    match objGet fs "text" with
    | none => ⟨.jsonResp 400 (errObj "No text provided"), st, []⟩
    | some t =>
      if truthy t then withText t env st
      else ⟨.jsonResp 400 (errObj "No text provided"), st, []⟩
  | _ => ⟨.crash, st, []⟩

/-- Sort order of the `SELECT ... ORDER BY timestamp DESC LIMIT 30` result:
timestamp descending.  The order of rows with equal timestamps is not fixed
by SQL; following the spec it is modelled as insertion order descending,
i.e. autoincrement id descending. -/
def rowLe (a b : Row) : Prop :=
  b.timestamp.key < a.timestamp.key ∨
    (b.timestamp.key = a.timestamp.key ∧ b.id ≤ a.id)

/-- Strictly-more-recent order on rows: a strictly later timestamp, or an
equal timestamp and a strictly larger autoincrement id (later insertion). -/
def rowLt (a b : Row) : Prop :=
  a.timestamp.key < b.timestamp.key ∨
    (a.timestamp.key = b.timestamp.key ∧ a.id < b.id)

instance : DecidableRel rowLt := fun a b => by unfold rowLt; infer_instance

instance : DecidableRel rowLe := fun a b => by unfold rowLe; infer_instance

instance : IsTotal Row rowLe := ⟨fun a b => by unfold rowLe; omega⟩

instance : IsTrans Row rowLe := ⟨fun a b c => by unfold rowLe; omega⟩

/-- `list_recent`: the rows ordered by timestamp descending (ties by id
descending), truncated to `limit`. -/
def list_recent (rows : List Row) (limit : Nat) : List Row :=
  (List.insertionSort rowLe rows).take limit

/-- One fetched row as serialized by `get_moods`: the five selected columns,
with the timestamp replaced by its ISO 8601 rendering. -/
def rowToJson (r : Row) : Json :=
  .jobj [("id", .jnum r.id), ("entry_text", r.entry_text),
    ("primary_emotion", r.primary_emotion), ("primary_score", r.primary_score),
    ("timestamp", .jstr (isoformat r.timestamp))]

/-- The `GET /moods` handler: connection failure, query failure, or the 30
most recent rows as a JSON array, newest first. -/
def get_moods (connOk readOk : Bool) (st : StoreState) : HandlerResult :=
  if connOk then
    if readOk then
      ⟨.jsonResp 200 (.jarr ((list_recent st.rows 30).map rowToJson)), st,
        [.dbConnect, .dbSelect]⟩
    else ⟨.jsonResp 500 (errObj "Failed to retrieve moods"), st, [.dbConnect, .dbSelect]⟩
  else ⟨.jsonResp 500 (errObj "Database connection failed"), st, [.dbConnect]⟩

/-- A non-empty emotion-scores mapping with string labels and rational
scores, as the classifier returns for well-formed responses. -/
def numDict (l : List (String × ℚ)) : List (Json × Json) :=
  l.map fun p => (.jstr p.1, .jnum p.2)

/-- Reference description of the `max` loop on string-labelled rational
scores: the running best is replaced exactly on strict improvement. -/
def firstMaxQ (best : String × ℚ) : List (String × ℚ) → String × ℚ
  | [] => best
  | p :: rest => if best.2 < p.2 then firstMaxQ p rest else firstMaxQ best rest

/-- A concrete valid instant used by concrete scenarios. -/
def dt0 : DateTime := ⟨2024, 5, 17, 12, 30, 45⟩

/-- The classifier response of the concrete success scenario:
a list containing one list of label/score objects, joy 0.92, neutral 0.05. -/
def resp7 : HttpResp :=
  .ok (.jarr [.jarr [.jobj [("label", .jstr "joy"), ("score", .jnum 0.92)],
    .jobj [("label", .jstr "neutral"), ("score", .jnum 0.05)]]])

/-- Environment of the concrete success scenario: classifier as above,
database connection and insert both succeed. -/
def env7 : Env := ⟨resp7, true, true, dt0⟩

/-- Request body of the concrete success scenario. -/
def body7 : Json := .jobj [("text", .jstr "I am thrilled about this!")]

/-- A classifier response whose outer shape is correct but whose single item
is an object with neither a label nor a score field. -/
def respNoFields : HttpResp := .ok (.jarr [.jarr [.jobj []]])

/-- A minimal successful environment: one emotion with integer score 1. -/
def envJoy : Env :=
  ⟨.ok (.jarr [.jarr [.jobj [("label", .jstr "joy"), ("score", .jnum 1)]]]), true, true, dt0⟩

/-- An empty store. -/
def st0 : StoreState := ⟨[], 1⟩

/- ### Branch lemmas for the handlers -/

theorem add_entry_no_key {fs : List (String × Json)} (env : Env) (st : StoreState)
    (h : objGet fs "text" = none) :
    add_entry (.jobj fs) env st = ⟨.jsonResp 400 (errObj "No text provided"), st, []⟩ := by
  simp only [add_entry, h]

theorem add_entry_falsy {fs : List (String × Json)} {t : Json} (env : Env) (st : StoreState)
    (h : objGet fs "text" = some t) (ht : truthy t = false) :
    add_entry (.jobj fs) env st = ⟨.jsonResp 400 (errObj "No text provided"), st, []⟩ := by
  simp [add_entry, h, ht]

theorem add_entry_truthy {fs : List (String × Json)} {t : Json} (env : Env) (st : StoreState)
    (h : objGet fs "text" = some t) (ht : truthy t = true) :
    add_entry (.jobj fs) env st = withText t env st := by
  simp [add_entry, h, ht]

theorem withText_crash {env : Env} (t : Json) (st : StoreState)
    (h : analyze_emotion env.classifierResp = .crash) :
    withText t env st = ⟨.crash, st, [.classify t]⟩ := by
  unfold withText
  rw [h]

theorem withText_failed {env : Env} (t : Json) (st : StoreState)
    (h : analyze_emotion env.classifierResp = .failed) :
    withText t env st = ⟨.jsonResp 500 (errObj "Failed to analyze emotion"), st,
      [.classify t]⟩ := by
  unfold withText
  rw [h]

theorem withText_empty {env : Env} (t : Json) (st : StoreState)
    (h : analyze_emotion env.classifierResp = .ok []) :
    withText t env st = ⟨.jsonResp 500 (errObj "Failed to analyze emotion"), st,
      [.classify t]⟩ := by
  unfold withText
  rw [h]
  simp [List.isEmpty]

theorem withText_selected {env : Env} {d : List (Json × Json)} {m : Json × Json}
    {sv ps : Json} (t : Json) (st : StoreState)
    (h : analyze_emotion env.classifierResp = .ok d)
    (hne : d.isEmpty = false) (hm : pyMax d = some m)
    (hsv : dictGet d m.1 = some sv) (hps : jsonTimes100 sv = some ps) :
    withText t env st = saveEntry t m.1 ps env st := by
  simp only [withText, h, hne, hm, hsv, hps, Bool.false_eq_true, if_false]

theorem saveEntry_ok {env : Env} (t pe ps : Json) (st : StoreState)
    (hc : env.connOk = true) (hi : env.insertOk = true) :
    saveEntry t pe ps env st =
      ⟨.jsonResp 200 (.jobj [("message", .jstr "Entry saved successfully"),
          ("emotion", pe), ("score", ps)]),
        ⟨st.rows ++ [⟨st.nextId, t, pe, ps, env.now⟩], st.nextId + 1⟩,
        [.classify t, .dbConnect, .dbInsert]⟩ := by
  unfold saveEntry
  rw [hc, hi]
  simp

theorem saveEntry_insert_fail {env : Env} (t pe ps : Json) (st : StoreState)
    (hc : env.connOk = true) (hi : env.insertOk = false) :
    saveEntry t pe ps env st =
      ⟨.jsonResp 500 (errObj "Failed to save entry to database"), st,
        [.classify t, .dbConnect, .dbInsert]⟩ := by
  unfold saveEntry
  rw [hc, hi]
  simp

theorem saveEntry_conn_fail {env : Env} (t pe ps : Json) (st : StoreState)
    (hc : env.connOk = false) :
    saveEntry t pe ps env st =
      ⟨.jsonResp 500 (errObj "Database connection failed"), st,
        [.classify t, .dbConnect]⟩ := by
  unfold saveEntry
  rw [hc]
  simp

/- ### The `max` loop on numeric score dicts -/

theorem pyMaxGo_numDict (l : List (String × ℚ)) : ∀ best : String × ℚ,
    pyMaxGo (.jstr best.1, .jnum best.2) (numDict l) =
      some (.jstr (firstMaxQ best l).1, .jnum (firstMaxQ best l).2) := by
  induction l with
  | nil => intro best; rfl
  | cons p rest ih =>
    intro best
    by_cases h : best.2 < p.2
    · simp only [numDict, List.map_cons, pyMaxGo, jsonLt, decide_eq_true_eq, if_pos h,
        firstMaxQ]
      exact ih p
    · simp only [numDict, List.map_cons, pyMaxGo, jsonLt, decide_eq_true_eq, if_neg h,
        firstMaxQ]
      exact ih best

theorem firstMaxQ_split (l : List (String × ℚ)) : ∀ best : String × ℚ,
    ∃ pre post, best :: l = pre ++ firstMaxQ best l :: post ∧
      (∀ p ∈ pre, p.2 < (firstMaxQ best l).2) ∧
      ∀ p ∈ best :: l, p.2 ≤ (firstMaxQ best l).2 := by
  induction l with
  | nil =>
    intro best
    refine ⟨[], [], rfl, by simp, ?_⟩
    intro p hp
    rcases List.mem_cons.1 hp with rfl | hp
    · simp [firstMaxQ]
    · cases hp
  | cons a rest ih =>
    intro best
    by_cases h : best.2 < a.2
    case pos =>
      have hfx : firstMaxQ best (a :: rest) = firstMaxQ a rest := by
        simp [firstMaxQ, if_pos h]
      rw [hfx]
      obtain ⟨pre, post, hsplit, hpre, hmax⟩ := ih a
      have hale : a.2 ≤ (firstMaxQ a rest).2 := hmax a (List.mem_cons_self a rest)
      refine ⟨best :: pre, post, ?_, ?_, ?_⟩
      · rw [List.cons_append, ← hsplit]
      · intro p hp
        rcases List.mem_cons.1 hp with rfl | hp
        · exact lt_of_lt_of_le h hale
        · exact hpre p hp
      · intro p hp
        rcases List.mem_cons.1 hp with rfl | hp
        · exact le_of_lt (lt_of_lt_of_le h hale)
        · exact hmax p hp
    case neg =>
      have hfx : firstMaxQ best (a :: rest) = firstMaxQ best rest := by
        simp [firstMaxQ, if_neg h]
      rw [hfx]
      obtain ⟨pre, post, hsplit, hpre, hmax⟩ := ih best
      have hble : best.2 ≤ (firstMaxQ best rest).2 :=
        hmax best (List.mem_cons_self best rest)
      have hale : a.2 ≤ (firstMaxQ best rest).2 := le_trans (le_of_not_lt h) hble
      cases pre with
      | nil =>
        rw [List.nil_append] at hsplit
        obtain ⟨hb, hrest⟩ := List.cons_eq_cons.1 hsplit
        refine ⟨[], a :: rest, ?_, by simp, ?_⟩
        · rw [List.nil_append, ← hb]
        · intro p hp
          rcases List.mem_cons.1 hp with rfl | hp
          · exact hble
          · rcases List.mem_cons.1 hp with rfl | hp
            · exact hale
            · exact hmax p (List.mem_cons_of_mem best hp)
      | cons b pre₂ =>
        rw [List.cons_append] at hsplit
        obtain ⟨hb, hrest⟩ := List.cons_eq_cons.1 hsplit
        have hblt : best.2 < (firstMaxQ best rest).2 := by
          have hpb := hpre b (List.mem_cons_self b pre₂)
          rwa [← hb] at hpb
        refine ⟨best :: a :: pre₂, post, ?_, ?_, ?_⟩
        · rw [List.cons_append, List.cons_append, ← hrest]
        · intro p hp
          rcases List.mem_cons.1 hp with rfl | hp
          · exact hblt
          · rcases List.mem_cons.1 hp with rfl | hp
            · exact lt_of_le_of_lt (le_of_not_lt h) hblt
            · exact hpre p (List.mem_cons_of_mem b hp)
        · intro p hp
          rcases List.mem_cons.1 hp with rfl | hp
          · exact hble
          · rcases List.mem_cons.1 hp with rfl | hp
            · exact hale
            · exact hmax p (List.mem_cons_of_mem best hp)

theorem firstMaxQ_mem (l : List (String × ℚ)) (best : String × ℚ) :
    firstMaxQ best l ∈ best :: l := by
  obtain ⟨pre, post, hsplit, -, -⟩ := firstMaxQ_split l best
  rw [hsplit]
  exact List.mem_append_right pre (List.mem_cons_self _ post)

theorem dictGet_numDict (l : List (String × ℚ)) (k : String) (q : ℚ)
    (hmem : (k, q) ∈ l) (hnd : (l.map Prod.fst).Nodup) :
    dictGet (numDict l) (.jstr k) = some (.jnum q) := by
  induction l with
  | nil => cases hmem
  | cons a rest ih =>
    simp only [List.map_cons, List.nodup_cons] at hnd
    rcases List.mem_cons.1 hmem with heq | hmem
    · rw [← heq]
      simp [dictGet, numDict, pyKeyEq, List.find?]
    · have hk : (a.1 == k) = false := by
        rw [beq_eq_false_iff_ne]
        intro he
        exact hnd.1 (he ▸ List.mem_map_of_mem Prod.fst hmem)
      have hres := ih hmem hnd.2
      simp only [dictGet, numDict, List.map_cons, List.find?, pyKeyEq, hk] at hres ⊢
      exact hres

/- ### The recent listing -/

theorem list_recent_length (rows : List Row) (n : Nat) :
    (list_recent rows n).length ≤ n := by
  simp only [list_recent, List.length_take]
  exact min_le_left n _

theorem list_recent_sorted (rows : List Row) (n : Nat) :
    (list_recent rows n).Pairwise rowLe :=
  (List.sorted_insertionSort rowLe rows).sublist (List.take_sublist n _)

theorem list_recent_ids_nodup (rows : List Row) (n : Nat)
    (h : (rows.map Row.id).Nodup) : ((list_recent rows n).map Row.id).Nodup := by
  have hperm : (List.insertionSort rowLe rows).map Row.id ~ rows.map Row.id :=
    (List.perm_insertionSort rowLe rows).map Row.id
  have hnd : ((List.insertionSort rowLe rows).map Row.id).Nodup := hperm.symm.nodup h
  have hsub : (list_recent rows n).map Row.id <+ (List.insertionSort rowLe rows).map Row.id := by
    simp only [list_recent, List.map_take]
    exact List.take_sublist n _
  exact hnd.sublist hsub

theorem list_recent_strict (rows : List Row) (n : Nat)
    (h : (rows.map Row.id).Nodup) :
    (list_recent rows n).Pairwise (fun a b => rowLt b a) := by
  have h1 := list_recent_sorted rows n
  have h2 : (list_recent rows n).Pairwise fun a b => a.id ≠ b.id :=
    List.pairwise_map.1 (list_recent_ids_nodup rows n h)
  refine (h1.and h2).imp ?_
  intro a b hab
  obtain ⟨hle, hne⟩ := hab
  unfold rowLe at hle
  unfold rowLt
  omega

theorem sorted_head_max (x h : Row) (t : List Row)
    (hs : (h :: t).Pairwise rowLe) (hx : x ∈ h :: t)
    (hdom : ∀ y ∈ h :: t, rowLt y x ∨ y = x) : h = x := by
  rcases hdom h (List.mem_cons_self h t) with hlt | heq
  · rcases List.mem_cons.1 hx with rfl | hxt
    · unfold rowLt at hlt
      omega
    · have hle : rowLe h x := (List.pairwise_cons.1 hs).1 x hxt
      unfold rowLe at hle
      unfold rowLt at hlt
      omega
  · exact heq

/- ### Store well-formedness -/

theorem StoreWF.ids_nodup {st : StoreState} (h : StoreWF st) :
    (st.rows.map Row.id).Nodup :=
  List.pairwise_map.2 (h.1.imp fun hab => Nat.ne_of_lt hab)

/- ### ISO 8601 rendering -/

theorem digitChar_isDigit (n : Nat) : (digitChar n).isDigit = true := by
  rcases n with _|_|_|_|_|_|_|_|_|m <;> rfl

theorem isoformat_valid (d : DateTime) : isValidIso (isoformat d) = true := by
  simp only [isoformat, isValidIso, pad2, pad4, List.append_assoc, List.cons_append,
    List.nil_append]
  simp [digitChar_isDigit]

/- ### Success path over a numeric score dict -/

theorem withText_numDict (t : Json) {env : Env} (st : StoreState)
    (hd : String × ℚ) (tl : List (String × ℚ))
    (hcl : analyze_emotion env.classifierResp = .ok (numDict (hd :: tl)))
    (hnd : ((hd :: tl).map Prod.fst).Nodup) :
    withText t env st =
      saveEntry t (.jstr (firstMaxQ hd tl).1) (.jnum ((firstMaxQ hd tl).2 * 100)) env st := by
  have hne : (numDict (hd :: tl)).isEmpty = false := by simp [numDict]
  have hm : pyMax (numDict (hd :: tl)) =
      some (.jstr (firstMaxQ hd tl).1, .jnum (firstMaxQ hd tl).2) := by
    simp only [numDict, List.map_cons, pyMax]
    exact pyMaxGo_numDict tl hd
  have hmemf : ((firstMaxQ hd tl).1, (firstMaxQ hd tl).2) ∈ hd :: tl := by
    rw [Prod.mk.eta]
    exact firstMaxQ_mem tl hd
  have hsv : dictGet (numDict (hd :: tl)) (.jstr (firstMaxQ hd tl).1) =
      some (.jnum (firstMaxQ hd tl).2) :=
    dictGet_numDict (hd :: tl) _ _ hmemf hnd
  have hps : jsonTimes100 (.jnum (firstMaxQ hd tl).2) =
      some (.jnum ((firstMaxQ hd tl).2 * 100)) := rfl
  exact withText_selected t st hcl hne hm hsv hps

theorem list_recent_head_new (rows : List Row) (new : Row) (m : Nat)
    (hdom : ∀ y ∈ rows, rowLt y new) :
    ∃ t2, list_recent (rows ++ [new]) (m + 1) = new :: t2 := by
  have hperm := List.perm_insertionSort rowLe (rows ++ [new])
  have hsorted := List.sorted_insertionSort rowLe (rows ++ [new])
  have hlen : (List.insertionSort rowLe (rows ++ [new])).length = rows.length + 1 := by
    rw [List.length_insertionSort, List.length_append, List.length_cons, List.length_nil]
  obtain ⟨h, t, hht⟩ := List.exists_cons_of_ne_nil
    (List.ne_nil_of_length_pos (by rw [hlen]; exact Nat.succ_pos rows.length))
  have hmem : new ∈ h :: t := by
    rw [← hht]
    exact hperm.mem_iff.2 (List.mem_append_right rows (List.mem_cons_self new []))
  have hdom' : ∀ y ∈ h :: t, rowLt y new ∨ y = new := by
    intro y hy
    rw [← hht] at hy
    rcases List.mem_append.1 (hperm.mem_iff.1 hy) with hy | hy
    · exact Or.inl (hdom y hy)
    · exact Or.inr (List.mem_singleton.1 hy)
  have hhead : h = new := sorted_head_max new h t (hht ▸ hsorted) hmem hdom'
  refine ⟨t.take m, ?_⟩
  rw [list_recent, hht, hhead, List.take_succ_cons]

/- ### Claim theorems -/

/-- C1: for every non-empty submitted text and every non-empty emotion-scores
mapping returned by the classifier, the persisted and returned primary
emotion is the label of the maximum score, ties broken by the first label in
iteration order (every earlier entry is strictly below the chosen score, and
no entry exceeds it), and the primary score is that label's score times 100,
both in the 200 response body and in the single row appended to the store. -/
theorem c1_primary_is_first_argmax
    (fs : List (String × Json)) (t : Json) (env : Env) (st : StoreState)
    (hd : String × ℚ) (tl : List (String × ℚ))
    (htext : objGet fs "text" = some t) (htr : truthy t = true)
    (hcl : analyze_emotion env.classifierResp = .ok (numDict (hd :: tl)))
    (hnd : ((hd :: tl).map Prod.fst).Nodup)
    (hc : env.connOk = true) (hi : env.insertOk = true) :
    ∃ (k : String) (q : ℚ) (pre post : List (String × ℚ)),
      hd :: tl = pre ++ (k, q) :: post ∧
      (∀ p ∈ pre, p.2 < q) ∧
      (∀ p ∈ hd :: tl, p.2 ≤ q) ∧
      add_entry (.jobj fs) env st =
        ⟨.jsonResp 200 (.jobj [("message", .jstr "Entry saved successfully"),
            ("emotion", .jstr k), ("score", .jnum (q * 100))]),
          ⟨st.rows ++ [⟨st.nextId, t, .jstr k, .jnum (q * 100), env.now⟩], st.nextId + 1⟩,
          [.classify t, .dbConnect, .dbInsert]⟩ := by
  obtain ⟨pre, post, hsplit, hpre, hmax⟩ := firstMaxQ_split tl hd
  refine ⟨(firstMaxQ hd tl).1, (firstMaxQ hd tl).2, pre, post, ?_, hpre, hmax, ?_⟩
  · rw [Prod.mk.eta]
    exact hsplit
  · rw [add_entry_truthy env st htext htr, withText_numDict t st hd tl hcl hnd,
      saveEntry_ok t _ _ st hc hi]

/-- Witness for C1 at a concrete input: text `"hi"`, classifier scores
joy 1, with connection and insert available. -/
theorem c1_witness :
    objGet [("text", Json.jstr "hi")] "text" = some (.jstr "hi") ∧
    truthy (.jstr "hi") = true ∧
    analyze_emotion envJoy.classifierResp = .ok (numDict [("joy", (1 : ℚ))]) ∧
    (([("joy", (1 : ℚ))].map Prod.fst).Nodup) ∧
    envJoy.connOk = true ∧ envJoy.insertOk = true ∧
    ∃ (k : String) (q : ℚ) (pre post : List (String × ℚ)),
      [("joy", (1 : ℚ))] = pre ++ (k, q) :: post ∧
      (∀ p ∈ pre, p.2 < q) ∧
      (∀ p ∈ [("joy", (1 : ℚ))], p.2 ≤ q) ∧
      add_entry (.jobj [("text", Json.jstr "hi")]) envJoy st0 =
        ⟨.jsonResp 200 (.jobj [("message", .jstr "Entry saved successfully"),
            ("emotion", .jstr k), ("score", .jnum (q * 100))]),
          ⟨st0.rows ++ [⟨st0.nextId, .jstr "hi", .jstr k, .jnum (q * 100), envJoy.now⟩],
            st0.nextId + 1⟩,
          [.classify (.jstr "hi"), .dbConnect, .dbInsert]⟩ :=
  ⟨rfl, rfl, rfl, by decide, rfl, rfl,
    c1_primary_is_first_argmax [("text", Json.jstr "hi")] (.jstr "hi") envJoy st0
      ("joy", 1) [] rfl rfl rfl (by decide) rfl rfl⟩

/-- C4: a request whose `text` field is absent or the empty string is
rejected with 400 and the error body `No text provided`; the store is
unchanged and no external call happens (empty event trace), for every
environment, so neither the classifier nor the database is touched. -/
theorem c4_empty_or_absent_text (fs : List (String × Json)) (env : Env) (st : StoreState)
    (h : objGet fs "text" = none ∨ objGet fs "text" = some (.jstr "")) :
    add_entry (.jobj fs) env st = ⟨.jsonResp 400 (errObj "No text provided"), st, []⟩ := by
  rcases h with h | h
  · exact add_entry_no_key env st h
  · exact add_entry_falsy env st h rfl

/-- Witness for C4 at a concrete input: a body with no `text` key. -/
theorem c4_witness :
    (objGet ([] : List (String × Json)) "text" = none ∨
      objGet ([] : List (String × Json)) "text" = some (.jstr "")) ∧
    add_entry (.jobj []) envJoy st0 =
      ⟨.jsonResp 400 (errObj "No text provided"), st0, []⟩ :=
  ⟨Or.inl rfl, c4_empty_or_absent_text [] envJoy st0 (Or.inl rfl)⟩

/-- C10: when the store holds no rows and the connection and query succeed,
`GET /moods` returns 200 with an empty JSON array. -/
theorem c10_empty_store (st : StoreState) (h : st.rows = []) :
    get_moods true true st = ⟨.jsonResp 200 (.jarr []), st, [.dbConnect, .dbSelect]⟩ := by
  have hl : list_recent st.rows 30 = [] := by rw [h]; rfl
  simp [get_moods, hl]

/-- Witness for C10 at the empty store. -/
theorem c10_witness :
    st0.rows = [] ∧
    get_moods true true st0 = ⟨.jsonResp 200 (.jarr []), st0, [.dbConnect, .dbSelect]⟩ :=
  ⟨rfl, c10_empty_store st0 rfl⟩

/-- C2: for every limit n, the recent listing returns at most n rows ordered
by timestamp descending with ties broken by larger id first (under the store
invariant, ids increase in insertion order, so this is most-recently-inserted
first); `GET /moods` serializes exactly the listing at limit 30 and leaves the
store unchanged on every path. -/
theorem c2_recent_listing (n : Nat) (st : StoreState) (hwf : StoreWF st) :
    (list_recent st.rows n).length ≤ n ∧
    (list_recent st.rows n).Pairwise (fun a b => rowLt b a) ∧
    (∀ c r : Bool, (get_moods c r st).store = st) ∧
    get_moods true true st =
      ⟨.jsonResp 200 (.jarr ((list_recent st.rows 30).map rowToJson)), st,
        [.dbConnect, .dbSelect]⟩ := by
  refine ⟨list_recent_length _ _, list_recent_strict _ _ hwf.ids_nodup, ?_, rfl⟩
  intro c r
  cases c <;> cases r <;> rfl

/-- Witness for C2 on a concrete store: two rows sharing one timestamp plus a
later row, at limit 30. -/
theorem c2_witness :
    StoreWF ⟨[⟨1, .jstr "a", .jstr "joy", .jnum 50, dt0⟩,
      ⟨2, .jstr "b", .jstr "sadness", .jnum 40, dt0⟩,
      ⟨3, .jstr "c", .jstr "fear", .jnum 30, ⟨2024, 5, 17, 12, 30, 46⟩⟩], 4⟩ ∧
    ((list_recent [⟨1, .jstr "a", .jstr "joy", .jnum 50, dt0⟩,
      ⟨2, .jstr "b", .jstr "sadness", .jnum 40, dt0⟩,
      ⟨3, .jstr "c", .jstr "fear", .jnum 30, ⟨2024, 5, 17, 12, 30, 46⟩⟩] 30).length ≤ 30 ∧
    (list_recent [⟨1, .jstr "a", .jstr "joy", .jnum 50, dt0⟩,
      ⟨2, .jstr "b", .jstr "sadness", .jnum 40, dt0⟩,
      ⟨3, .jstr "c", .jstr "fear", .jnum 30, ⟨2024, 5, 17, 12, 30, 46⟩⟩] 30).Pairwise
      (fun a b => rowLt b a) ∧
    (∀ c r : Bool, (get_moods c r ⟨[⟨1, .jstr "a", .jstr "joy", .jnum 50, dt0⟩,
      ⟨2, .jstr "b", .jstr "sadness", .jnum 40, dt0⟩,
      ⟨3, .jstr "c", .jstr "fear", .jnum 30, ⟨2024, 5, 17, 12, 30, 46⟩⟩], 4⟩).store =
      ⟨[⟨1, .jstr "a", .jstr "joy", .jnum 50, dt0⟩,
        ⟨2, .jstr "b", .jstr "sadness", .jnum 40, dt0⟩,
        ⟨3, .jstr "c", .jstr "fear", .jnum 30, ⟨2024, 5, 17, 12, 30, 46⟩⟩], 4⟩) ∧
    get_moods true true ⟨[⟨1, .jstr "a", .jstr "joy", .jnum 50, dt0⟩,
      ⟨2, .jstr "b", .jstr "sadness", .jnum 40, dt0⟩,
      ⟨3, .jstr "c", .jstr "fear", .jnum 30, ⟨2024, 5, 17, 12, 30, 46⟩⟩], 4⟩ =
      ⟨.jsonResp 200 (.jarr ((list_recent [⟨1, .jstr "a", .jstr "joy", .jnum 50, dt0⟩,
          ⟨2, .jstr "b", .jstr "sadness", .jnum 40, dt0⟩,
          ⟨3, .jstr "c", .jstr "fear", .jnum 30, ⟨2024, 5, 17, 12, 30, 46⟩⟩] 30).map rowToJson)),
        ⟨[⟨1, .jstr "a", .jstr "joy", .jnum 50, dt0⟩,
          ⟨2, .jstr "b", .jstr "sadness", .jnum 40, dt0⟩,
          ⟨3, .jstr "c", .jstr "fear", .jnum 30, ⟨2024, 5, 17, 12, 30, 46⟩⟩], 4⟩,
        [.dbConnect, .dbSelect]⟩) :=
  by
  have hwf : StoreWF ⟨[⟨1, .jstr "a", .jstr "joy", .jnum 50, dt0⟩,
      ⟨2, .jstr "b", .jstr "sadness", .jnum 40, dt0⟩,
      ⟨3, .jstr "c", .jstr "fear", .jnum 30, ⟨2024, 5, 17, 12, 30, 46⟩⟩], 4⟩ := by
    refine ⟨?_, ?_⟩
    · simp [List.pairwise_cons]
    · intro r hr
      fin_cases hr <;> simp
  exact ⟨hwf, c2_recent_listing 30 _ hwf⟩

/-- C5: when the insert fails after a successful classification, `add_entry`
returns only the 500 body `Failed to save entry to database`, the store is
unchanged (the classification result is discarded, no partial row), and the
recent listing over the resulting store is identical to the listing before
the request. -/
theorem c5_insert_failure
    (fs : List (String × Json)) (t : Json) (env : Env) (st : StoreState)
    (d : List (Json × Json)) (m : Json × Json) (sv ps : Json)
    (htext : objGet fs "text" = some t) (htr : truthy t = true)
    (hcl : analyze_emotion env.classifierResp = .ok d) (hne : d.isEmpty = false)
    (hm : pyMax d = some m) (hsv : dictGet d m.1 = some sv)
    (hps : jsonTimes100 sv = some ps)
    (hc : env.connOk = true) (hi : env.insertOk = false) :
    add_entry (.jobj fs) env st =
      ⟨.jsonResp 500 (errObj "Failed to save entry to database"), st,
        [.classify t, .dbConnect, .dbInsert]⟩ ∧
    get_moods true true (add_entry (.jobj fs) env st).store = get_moods true true st := by
  have h1 : add_entry (.jobj fs) env st =
      ⟨.jsonResp 500 (errObj "Failed to save entry to database"), st,
        [.classify t, .dbConnect, .dbInsert]⟩ := by
    rw [add_entry_truthy env st htext htr, withText_selected t st hcl hne hm hsv hps,
      saveEntry_insert_fail t m.1 ps st hc hi]
  exact ⟨h1, by rw [h1]⟩

/-- Witness for C5 at a concrete input: text `"hi"`, classifier scores joy 1,
connection available but insert failing. -/
theorem c5_witness :
    objGet [("text", Json.jstr "hi")] "text" = some (.jstr "hi") ∧
    analyze_emotion (HttpResp.ok (.jarr [.jarr [.jobj [("label", .jstr "joy"),
      ("score", .jnum 1)]]])) = .ok [(.jstr "joy", .jnum 1)] ∧
    add_entry (.jobj [("text", Json.jstr "hi")])
        ⟨.ok (.jarr [.jarr [.jobj [("label", .jstr "joy"), ("score", .jnum 1)]]]),
          true, false, dt0⟩ st0 =
      ⟨.jsonResp 500 (errObj "Failed to save entry to database"), st0,
        [.classify (.jstr "hi"), .dbConnect, .dbInsert]⟩ ∧
    get_moods true true (add_entry (.jobj [("text", Json.jstr "hi")])
        ⟨.ok (.jarr [.jarr [.jobj [("label", .jstr "joy"), ("score", .jnum 1)]]]),
          true, false, dt0⟩ st0).store = get_moods true true st0 := by
  have h := c5_insert_failure [("text", Json.jstr "hi")] (.jstr "hi")
    ⟨.ok (.jarr [.jarr [.jobj [("label", .jstr "joy"), ("score", .jnum 1)]]]),
      true, false, dt0⟩ st0
    [(.jstr "joy", .jnum 1)] (.jstr "joy", .jnum 1) (.jnum 1) (.jnum 100)
    rfl rfl rfl rfl (by norm_num [pyMax, pyMaxGo]) rfl (by norm_num [jsonTimes100])
    rfl rfl
  exact ⟨rfl, rfl, h.1, h.2⟩

/-- C8: a classifier response parsing to an empty mapping (concretely, the
body consisting of a list holding one empty list) is caught by the falsiness
check on the dict, so `add_entry` answers 500 `Failed to analyze emotion`
without reaching the maximum selection (which would crash on an empty dict)
and without touching the store. -/
theorem c8_empty_mapping_guard :
    analyze_emotion (.ok (.jarr [.jarr []])) = .ok [] ∧
    ∀ (fs : List (String × Json)) (t : Json) (env : Env) (st : StoreState),
      objGet fs "text" = some t → truthy t = true →
      analyze_emotion env.classifierResp = .ok [] →
      add_entry (.jobj fs) env st =
        ⟨.jsonResp 500 (errObj "Failed to analyze emotion"), st, [.classify t]⟩ := by
  refine ⟨rfl, ?_⟩
  intro fs t env st htext htr hcl
  rw [add_entry_truthy env st htext htr, withText_empty t st hcl]

/-- Witness for C8 at a concrete input: the response of one empty inner
list. -/
theorem c8_witness :
    objGet [("text", Json.jstr "hi")] "text" = some (.jstr "hi") ∧
    truthy (.jstr "hi") = true ∧
    analyze_emotion (HttpResp.ok (.jarr [.jarr []])) = .ok [] ∧
    add_entry (.jobj [("text", Json.jstr "hi")]) ⟨.ok (.jarr [.jarr []]), true, true, dt0⟩ st0 =
      ⟨.jsonResp 500 (errObj "Failed to analyze emotion"), st0,
        [.classify (.jstr "hi")]⟩ :=
  ⟨rfl, rfl, rfl,
    (c8_empty_mapping_guard).2 [("text", Json.jstr "hi")] (.jstr "hi")
      ⟨.ok (.jarr [.jarr []]), true, true, dt0⟩ st0 rfl rfl rfl⟩

/-- C3 (code bug evidence): for the well-caught malformed shapes the 500
JSON error is returned, but for a list-of-list whose item is missing the
label and score fields the dict comprehension raises an uncaught `KeyError`:
the handler crashes (Flask's generic error page, not the JSON body
`Failed to analyze emotion`), though still with zero rows persisted. -/
theorem c3_missing_fields_crash :
    (∀ (fs : List (String × Json)) (t : Json) (env : Env) (st : StoreState),
      objGet fs "text" = some t → truthy t = true →
      analyze_emotion env.classifierResp = .failed →
      add_entry (.jobj fs) env st =
        ⟨.jsonResp 500 (errObj "Failed to analyze emotion"), st, [.classify t]⟩) ∧
    analyze_emotion respNoFields = .crash ∧
    add_entry (.jobj [("text", .jstr "hello")]) ⟨respNoFields, true, true, dt0⟩ st0 =
      ⟨.crash, st0, [.classify (.jstr "hello")]⟩ ∧
    ∀ b : Json, (Response.crash ≠ Response.jsonResp 500 b) := by
  refine ⟨?_, rfl, rfl, ?_⟩
  · intro fs t env st htext htr hcl
    rw [add_entry_truthy env st htext htr, withText_failed t st hcl]
  · intro b h
    cases h

/-- Witness for the hypothesis-bearing part of the C3 theorem: a transport
failure yields the JSON error body. -/
theorem c3_witness :
    objGet [("text", Json.jstr "hi")] "text" = some (.jstr "hi") ∧
    analyze_emotion HttpResp.transportError = .failed ∧
    add_entry (.jobj [("text", Json.jstr "hi")]) ⟨.transportError, true, true, dt0⟩ st0 =
      ⟨.jsonResp 500 (errObj "Failed to analyze emotion"), st0, [.classify (.jstr "hi")]⟩ :=
  ⟨rfl, rfl,
    c3_missing_fields_crash.1 [("text", Json.jstr "hi")] (.jstr "hi")
      ⟨.transportError, true, true, dt0⟩ st0 rfl rfl rfl⟩

/-- C6: a record inserted by a successful submit is the head of the recent
listing taken immediately afterwards (given the store invariant and a clock
not behind the stored rows): same text, same primary emotion, a primary
score within 0.01 of the submitted one, and a timestamp rendered as a valid
ISO 8601 string. -/
theorem c6_roundtrip
    (fs : List (String × Json)) (t : Json) (env : Env) (st : StoreState)
    (hd : String × ℚ) (tl : List (String × ℚ))
    (htext : objGet fs "text" = some t) (htr : truthy t = true)
    (hcl : analyze_emotion env.classifierResp = .ok (numDict (hd :: tl)))
    (hnd : ((hd :: tl).map Prod.fst).Nodup)
    (hc : env.connOk = true) (hi : env.insertOk = true)
    (hwf : StoreWF st)
    (hclock : ∀ r ∈ st.rows, r.timestamp.key ≤ env.now.key) :
    ∃ (q' : ℚ) (rest : List Json),
      (add_entry (.jobj fs) env st).resp =
        .jsonResp 200 (.jobj [("message", .jstr "Entry saved successfully"),
          ("emotion", .jstr (firstMaxQ hd tl).1),
          ("score", .jnum ((firstMaxQ hd tl).2 * 100))]) ∧
      get_moods true true (add_entry (.jobj fs) env st).store =
        ⟨.jsonResp 200 (.jarr (
            Json.jobj [("id", .jnum st.nextId), ("entry_text", t),
              ("primary_emotion", .jstr (firstMaxQ hd tl).1),
              ("primary_score", .jnum q'),
              ("timestamp", .jstr (isoformat env.now))] :: rest)),
          (add_entry (.jobj fs) env st).store, [.dbConnect, .dbSelect]⟩ ∧
      |q' - (firstMaxQ hd tl).2 * 100| ≤ 1 / 100 ∧
      isValidIso (isoformat env.now) = true := by
  have hadd : add_entry (.jobj fs) env st =
      ⟨.jsonResp 200 (.jobj [("message", .jstr "Entry saved successfully"),
          ("emotion", .jstr (firstMaxQ hd tl).1),
          ("score", .jnum ((firstMaxQ hd tl).2 * 100))]),
        ⟨st.rows ++ [⟨st.nextId, t, .jstr (firstMaxQ hd tl).1,
          .jnum ((firstMaxQ hd tl).2 * 100), env.now⟩], st.nextId + 1⟩,
        [.classify t, .dbConnect, .dbInsert]⟩ := by
    rw [add_entry_truthy env st htext htr, withText_numDict t st hd tl hcl hnd,
      saveEntry_ok t _ _ st hc hi]
  have hdom : ∀ y ∈ st.rows,
      rowLt y (⟨st.nextId, t, .jstr (firstMaxQ hd tl).1,
        .jnum ((firstMaxQ hd tl).2 * 100), env.now⟩ : Row) := by
    intro y hy
    have h1 := hclock y hy
    have h2 := hwf.2 y hy
    unfold rowLt
    simp only []
    omega
  obtain ⟨t2, ht2⟩ := list_recent_head_new st.rows
    ⟨st.nextId, t, .jstr (firstMaxQ hd tl).1,
      .jnum ((firstMaxQ hd tl).2 * 100), env.now⟩ 29 hdom
  refine ⟨(firstMaxQ hd tl).2 * 100, t2.map rowToJson, ?_, ?_, ?_, isoformat_valid env.now⟩
  · rw [hadd]
  · rw [hadd]
    show get_moods true true ⟨st.rows ++ [_], st.nextId + 1⟩ = _
    simp only [get_moods, if_pos rfl]
    rw [show (29 : Nat) + 1 = 30 from rfl] at ht2
    rw [ht2]
    rfl
  · simp

/-- Witness for C6 at a concrete input: empty store, text `"hi"`, classifier
scores joy 1. -/
theorem c6_witness :
    StoreWF st0 ∧
    ∃ (q' : ℚ) (rest : List Json),
      (add_entry (.jobj [("text", Json.jstr "hi")]) envJoy st0).resp =
        .jsonResp 200 (.jobj [("message", .jstr "Entry saved successfully"),
          ("emotion", .jstr (firstMaxQ ("joy", (1 : ℚ)) []).1),
          ("score", .jnum ((firstMaxQ ("joy", (1 : ℚ)) []).2 * 100))]) ∧
      get_moods true true (add_entry (.jobj [("text", Json.jstr "hi")]) envJoy st0).store =
        ⟨.jsonResp 200 (.jarr (
            Json.jobj [("id", .jnum st0.nextId), ("entry_text", .jstr "hi"),
              ("primary_emotion", .jstr (firstMaxQ ("joy", (1 : ℚ)) []).1),
              ("primary_score", .jnum q'),
              ("timestamp", .jstr (isoformat envJoy.now))] :: rest)),
          (add_entry (.jobj [("text", Json.jstr "hi")]) envJoy st0).store,
          [.dbConnect, .dbSelect]⟩ ∧
      |q' - (firstMaxQ ("joy", (1 : ℚ)) []).2 * 100| ≤ 1 / 100 ∧
      isValidIso (isoformat envJoy.now) = true :=
  ⟨⟨List.Pairwise.nil, by intro r hr; cases hr⟩,
    c6_roundtrip [("text", Json.jstr "hi")] (.jstr "hi") envJoy st0 ("joy", 1) []
      rfl rfl rfl (by decide) rfl rfl ⟨List.Pairwise.nil, by intro r hr; cases hr⟩
      (by intro r hr; cases hr)⟩

/-- C7: on the success path the response is 200 with the body holding the
message `Entry saved successfully`, the primary emotion and the primary
score; in particular submitting `I am thrilled about this!` against a
classifier answering joy 0.92 / neutral 0.05 yields 200 with emotion `joy`
and score 92, and persists exactly that row. -/
theorem c7_success_response :
    (∀ (fs : List (String × Json)) (t : Json) (env : Env) (st : StoreState)
      (d : List (Json × Json)) (m : Json × Json) (sv ps : Json),
      objGet fs "text" = some t → truthy t = true →
      analyze_emotion env.classifierResp = .ok d → d.isEmpty = false →
      pyMax d = some m → dictGet d m.1 = some sv → jsonTimes100 sv = some ps →
      env.connOk = true → env.insertOk = true →
      (add_entry (.jobj fs) env st).resp =
        .jsonResp 200 (.jobj [("message", .jstr "Entry saved successfully"),
          ("emotion", m.1), ("score", ps)])) ∧
    add_entry body7 env7 st0 =
      ⟨.jsonResp 200 (.jobj [("message", .jstr "Entry saved successfully"),
          ("emotion", .jstr "joy"), ("score", .jnum 92)]),
        ⟨[⟨1, .jstr "I am thrilled about this!", .jstr "joy", .jnum 92, dt0⟩], 2⟩,
        [.classify (.jstr "I am thrilled about this!"), .dbConnect, .dbInsert]⟩ := by
  constructor
  · intro fs t env st d m sv ps htext htr hcl hne hm hsv hps hc hi
    rw [add_entry_truthy env st htext htr, withText_selected t st hcl hne hm hsv hps,
      saveEntry_ok t m.1 ps st hc hi]
  · have hcl : analyze_emotion env7.classifierResp =
        .ok (numDict [("joy", (0.92 : ℚ)), ("neutral", (0.05 : ℚ))]) := rfl
    have hfm : firstMaxQ ("joy", (0.92 : ℚ)) [("neutral", (0.05 : ℚ))] =
        ("joy", (0.92 : ℚ)) := by
      norm_num [firstMaxQ]
    have hb : body7 = .jobj [("text", .jstr "I am thrilled about this!")] := rfl
    rw [hb, add_entry_truthy env7 st0 (show objGet [("text", Json.jstr "I am thrilled about this!")] "text" = some (.jstr "I am thrilled about this!") from rfl) rfl,
      withText_numDict (.jstr "I am thrilled about this!") st0 ("joy", (0.92 : ℚ))
        [("neutral", (0.05 : ℚ))] hcl (by decide),
      hfm, saveEntry_ok _ _ _ st0 rfl rfl]
    simp only [env7, st0]
    norm_num

/-- Witness for the hypothesis-bearing part of the C7 theorem, at the data of
the concrete scenario. -/
theorem c7_witness :
    pyMax [(Json.jstr "joy", Json.jnum 0.92), (Json.jstr "neutral", Json.jnum 0.05)] =
      some (Json.jstr "joy", Json.jnum 0.92) ∧
    (add_entry (.jobj [("text", Json.jstr "I am thrilled about this!")]) env7 st0).resp =
      .jsonResp 200 (.jobj [("message", .jstr "Entry saved successfully"),
        ("emotion", .jstr "joy"), ("score", .jnum (0.92 * 100))]) := by
  have hm : pyMax [(Json.jstr "joy", Json.jnum 0.92), (Json.jstr "neutral", Json.jnum 0.05)] =
      some (Json.jstr "joy", Json.jnum 0.92) := by
    norm_num [pyMax, pyMaxGo, jsonLt]
  exact ⟨hm,
    c7_success_response.1 [("text", Json.jstr "I am thrilled about this!")]
      (.jstr "I am thrilled about this!") env7 st0
      [(Json.jstr "joy", Json.jnum 0.92), (Json.jstr "neutral", Json.jnum 0.05)]
      (Json.jstr "joy", Json.jnum 0.92) (Json.jnum 0.92) (Json.jnum (0.92 * 100))
      rfl rfl rfl rfl hm rfl rfl rfl rfl⟩

/-- C9: validation is Python truthiness, not string emptiness: every falsy
value in the `text` field (null, empty string, zero, false, empty array) is
rejected with the same 400 error and empty event trace, while the
whitespace-only string `" "` passes validation and, in a successful
environment, is classified and persisted. -/
theorem c9_truthiness_validation :
    (∀ v ∈ [Json.null, Json.jstr "", Json.jnum 0, Json.jbool false, Json.jarr []],
      ∀ (env : Env) (st : StoreState),
        add_entry (.jobj [("text", v)]) env st =
          ⟨.jsonResp 400 (errObj "No text provided"), st, []⟩) ∧
    ∀ st : StoreState,
      add_entry (.jobj [("text", .jstr " ")]) envJoy st =
        ⟨.jsonResp 200 (.jobj [("message", .jstr "Entry saved successfully"),
            ("emotion", .jstr "joy"), ("score", .jnum 100)]),
          ⟨st.rows ++ [⟨st.nextId, .jstr " ", .jstr "joy", .jnum 100, dt0⟩], st.nextId + 1⟩,
          [.classify (.jstr " "), .dbConnect, .dbInsert]⟩ := by
  constructor
  · intro v hv env st
    fin_cases hv <;> exact add_entry_falsy env st rfl (by norm_num [truthy])
  · intro st
    have hcl : analyze_emotion envJoy.classifierResp = .ok (numDict [("joy", (1 : ℚ))]) := rfl
    rw [add_entry_truthy envJoy st (show objGet [("text", Json.jstr " ")] "text" = some (.jstr " ") from rfl) rfl,
      withText_numDict (.jstr " ") st ("joy", (1 : ℚ)) [] hcl (by decide),
      saveEntry_ok _ _ _ st rfl rfl]
    simp only [envJoy, firstMaxQ]
    norm_num

/-- Witness for C9 at the concrete falsy value null and the empty store. -/
theorem c9_witness :
    Json.null ∈ [Json.null, Json.jstr "", Json.jnum 0, Json.jbool false, Json.jarr []] ∧
    add_entry (.jobj [("text", Json.null)]) envJoy st0 =
      ⟨.jsonResp 400 (errObj "No text provided"), st0, []⟩ ∧
    add_entry (.jobj [("text", .jstr " ")]) envJoy st0 =
      ⟨.jsonResp 200 (.jobj [("message", .jstr "Entry saved successfully"),
          ("emotion", .jstr "joy"), ("score", .jnum 100)]),
        ⟨st0.rows ++ [⟨st0.nextId, .jstr " ", .jstr "joy", .jnum 100, dt0⟩], st0.nextId + 1⟩,
        [.classify (.jstr " "), .dbConnect, .dbInsert]⟩ :=
  ⟨List.mem_cons_self _ _,
    c9_truthiness_validation.1 Json.null (List.mem_cons_self _ _) envJoy st0,
    c9_truthiness_validation.2 st0⟩
